import Mathlib

/-
Verification of the REPLITE-AGENT control plane.

Shallow embedding of the server code:
  - src/unnamed/part_001 (registerRoutes: session/task/approval routes, and the
    WebSocket StreamingService), and
  - src/server/storage.ts (DatabaseStorage over the drizzle tables declared in
    the shared schema).

Modelling conventions:
  - The database is an in-memory `Store`: each table is a Lean list kept in
    insertion order (rows are appended on create; `createdAt` is ascending).
  - `new Date()` timestamps are a natural number clock `Store.now`; a single
    route invocation happens at one instant, so `now` is constant inside it.
  - drizzle `update ... set {..., updatedAt: new Date()} where eq(id) returning`
    maps every row whose id matches and returns the first updated row
    (`undefined`, i.e. `none`, when no row matched - the routes answer 404).
  - Route handlers return a `RouteResult`: the JSON payload (`none` = the 404
    "not found" response), the store after the handler ran, and the list of
    StreamEvents the handler handed to `streamingService` (in emission order).
  - The StreamingService keeps `clients: Map<string, WebSocketClient[]>`,
    embedded as an association list; a WebSocket is identified by `cid`,
    `readyState === OPEN` is `isOpen`, and a delivered message is appended to
    the client's `inbox`.  `ws.send` on an open socket never throws into
    `broadcast` (transport failures surface on the `error` event, whose handler
    calls `removeClient`), so `broadcast` is a total function.
-/

namespace RepliteAgent

/-- The closed action enum of `actionStepSchema` in the shared schema. -/
inductive ActionKind where
  | check_tool
  | install_tool
  | call_tool
  | read_file
  | write_file
  | delete_file
  | git_clone
  | git_commit
  | git_push
  | git_create_branch
  | git_create_pr
  | save_artifact
  | get_artifact
  | shell_exec
  | python_exec
  | docker_run
  | wait_approval
deriving DecidableEq

/-- One step of a task plan (`actionStepSchema`): action, optional target,
uninterpreted args payload, optional description. -/
structure ActionStep where
  action : ActionKind
  target : Option String := none
  args : Option String := none
  description : Option String := none
deriving DecidableEq

/-- Task status values of the `tasks` table. -/
inductive TaskStatus where
  | pending
  | running
  | completed
  | failed
  | cancelled
deriving DecidableEq

/-- Session status values of the `sessions` table. -/
inductive SessionStatus where
  | idle
  | running
  | paused
  | completed
  | failed
deriving DecidableEq

/-- Approval status values of the `approvals` table. -/
inductive ApprovalStatus where
  | pending
  | approved
  | rejected
deriving DecidableEq

/-- A row of the `sessions` table (fields the control plane reads). -/
structure Session where
  id : String
  name : String
  status : SessionStatus
  dryRunMode : Bool
  allowDestructive : Bool
  createdAt : Nat
  updatedAt : Nat
deriving DecidableEq

/-- A row of the `tasks` table. -/
structure Task where
  id : String
  sessionId : String
  title : String
  status : TaskStatus
  plan : List ActionStep
  currentStep : Nat
  totalSteps : Nat
  error : Option String
  retryCount : Nat
  createdAt : Nat
  updatedAt : Nat
deriving DecidableEq

/-- A row of the `approvals` table.  `action` is stored as text in the code. -/
structure Approval where
  id : String
  sessionId : String
  taskId : Option String
  action : String
  status : ApprovalStatus
  createdAt : Nat
  resolvedAt : Option Nat
deriving DecidableEq

/-- The `StreamEventType` union of the shared schema. -/
inductive StreamEventType where
  | session_start
  | session_end
  | task_start
  | task_step
  | task_complete
  | task_error
  | log_line
  | stdout
  | stderr
  | approval_required
  | approval_resolved
deriving DecidableEq

/-- The `data` payloads the StreamingService helpers construct. -/
inductive StreamData where
  | logLine (message : String) (level : String)
  | taskStart (title : String)
  | taskStep (stepIndex : Nat) (totalSteps : Nat) (action : ActionKind)
  | taskComplete (success : Bool)
  | approvalResolved (approvalId : String) (status : ApprovalStatus)
deriving DecidableEq

/-- A `StreamEvent` record (the ISO timestamp field is not modelled; no claim
reads it). -/
structure StreamEvent where
  type : StreamEventType
  sessionId : String
  taskId : Option String
  data : StreamData
deriving DecidableEq

/-- The durable store: the tables the control-plane routes touch, each in
insertion order, plus the clock used for `new Date()`. -/
structure Store where
  sessions : List Session
  tasks : List Task
  approvals : List Approval
  now : Nat
deriving DecidableEq

/-- `Partial<InsertTask>` as the routes use it: absent fields are `none`. -/
structure TaskUpdate where
  status : Option TaskStatus := none
  currentStep : Option Nat := none
  totalSteps : Option Nat := none
  error : Option (Option String) := none
  retryCount : Option Nat := none
  plan : Option (List ActionStep) := none
  title : Option String := none

/-- `Partial<InsertSession>` as the routes use it. -/
structure SessionUpdate where
  status : Option SessionStatus := none
  dryRunMode : Option Bool := none
  allowDestructive : Option Bool := none
  name : Option String := none

/-- drizzle `.set({...updates, updatedAt: new Date()})` applied to one task
row. -/
def applyTaskUpdate (u : TaskUpdate) (now : Nat) (t : Task) : Task :=
  { t with
    status := u.status.getD t.status
    currentStep := u.currentStep.getD t.currentStep
    totalSteps := u.totalSteps.getD t.totalSteps
    error := u.error.getD t.error
    retryCount := u.retryCount.getD t.retryCount
    plan := u.plan.getD t.plan
    title := u.title.getD t.title
    updatedAt := now }

/-- drizzle `.set({...updates, updatedAt: new Date()})` applied to one session
row. -/
def applySessionUpdate (u : SessionUpdate) (now : Nat) (s : Session) : Session :=
  { s with
    status := u.status.getD s.status
    dryRunMode := u.dryRunMode.getD s.dryRunMode
    allowDestructive := u.allowDestructive.getD s.allowDestructive
    name := u.name.getD s.name
    updatedAt := now }

/-- `DatabaseStorage.getSession`. -/
def getSession (st : Store) (id : String) : Option Session :=
  st.sessions.find? (fun s => s.id == id)

/-- `DatabaseStorage.getTask`. -/
def getTask (st : Store) (id : String) : Option Task :=
  st.tasks.find? (fun t => t.id == id)

/-- `DatabaseStorage.getApproval`. -/
def getApproval (st : Store) (id : String) : Option Approval :=
  st.approvals.find? (fun a => a.id == id)

/-- `DatabaseStorage.getTasksBySession`: filter by session, ordered by
`desc(createdAt)` - the reverse of the insertion-ordered table. -/
def getTasksBySession (st : Store) (sid : String) : List Task :=
  (st.tasks.filter (fun t => t.sessionId == sid)).reverse

/-- `DatabaseStorage.updateTask`: update every row whose id matches, return the
updated row (or `none` when the id is unknown). -/
def updateTask (st : Store) (id : String) (u : TaskUpdate) : Store × Option Task :=
  let ts := st.tasks.map (fun t => if t.id == id then applyTaskUpdate u st.now t else t)
  ({ st with tasks := ts }, ts.find? (fun t => t.id == id))

/-- `DatabaseStorage.updateSession`. -/
def updateSession (st : Store) (id : String) (u : SessionUpdate) :
    Store × Option Session :=
  let ss := st.sessions.map (fun s => if s.id == id then applySessionUpdate u st.now s else s)
  ({ st with sessions := ss }, ss.find? (fun s => s.id == id))

/-- `DatabaseStorage.getPendingApprovals`: the approvals of the session whose
status is `pending`, in table order (the query has no ORDER BY; the table is
kept in insertion order, i.e. ascending `createdAt`). -/
def getPendingApprovals (st : Store) (sid : String) : List Approval :=
  st.approvals.filter (fun a => a.sessionId == sid && a.status == ApprovalStatus.pending)

/-- `DatabaseStorage.resolveApproval`: unconditionally set `status` and
`resolvedAt` on every row whose id matches - there is no check that the
approval is still pending - and return the updated row. -/
def resolveApproval (st : Store) (id : String) (status : ApprovalStatus) :
    Store × Option Approval :=
  let as := st.approvals.map
    (fun a => if a.id == id then { a with status := status, resolvedAt := some st.now } else a)
  ({ st with approvals := as }, as.find? (fun a => a.id == id))

/-- `streamingService.sendLogLine`. -/
def sendLogLine (sid : String) (tid : Option String) (message : String)
    (level : String) : StreamEvent :=
  { type := .log_line, sessionId := sid, taskId := tid,
    data := .logLine message level }

/-- `streamingService.sendTaskStart`. -/
def sendTaskStart (sid tid title : String) : StreamEvent :=
  { type := .task_start, sessionId := sid, taskId := some tid,
    data := .taskStart title }

/-- `streamingService.sendTaskStep`. -/
def sendTaskStep (sid tid : String) (stepIndex totalSteps : Nat)
    (action : ActionKind) : StreamEvent :=
  { type := .task_step, sessionId := sid, taskId := some tid,
    data := .taskStep stepIndex totalSteps action }

/-- `streamingService.sendTaskComplete`. -/
def sendTaskComplete (sid tid : String) (success : Bool) : StreamEvent :=
  { type := .task_complete, sessionId := sid, taskId := some tid,
    data := .taskComplete success }

/-- `streamingService.sendApprovalResolved` (note: it sends no `taskId`). -/
def sendApprovalResolved (sid aid : String) (status : ApprovalStatus) : StreamEvent :=
  { type := .approval_resolved, sessionId := sid, taskId := none,
    data := .approvalResolved aid status }

/-- Result of one route handler: the JSON payload (`none` encodes the 404
response), the store afterwards, and the StreamEvents broadcast, in order. -/
structure RouteResult (α : Type) where
  result : Option α
  store : Store
  events : List StreamEvent

/-- The cancellation loop of `POST /api/sessions/:id/stop`: for each task of
the fetched list, if its (fetched) status is `running`, set it to
`cancelled`. -/
def cancelRunning (l : List Task) (st : Store) : Store :=
  l.foldl
    (fun acc t =>
      if t.status == TaskStatus.running then
        (updateTask acc t.id { status := some .cancelled }).1
      else acc)
    st

/-- `POST /api/sessions/:id/stop`: set the session status to `idle`; 404 when
the id is unknown; otherwise cancel every running task of the session and
broadcast one summarizing warn log line. -/
def stopSessionRoute (st : Store) (sid : String) : RouteResult Session :=
  let p := updateSession st sid { status := some .idle }
  match p.2 with
  | none => { result := none, store := p.1, events := [] }
  | some s =>
    let l := getTasksBySession p.1 sid
    let st2 := cancelRunning l p.1
    { result := some s
      store := st2
      events := [sendLogLine sid none
        "Emergency stop triggered - all processes terminated" "warn"] }

/-- The simulation loop of `POST /api/tasks/:id/run`: for each plan step emit
`task_step(i, plan.length, plan[i].action)` and persist `currentStep := i+1`. -/
def runSteps (sid tid : String) (total : Nat) :
    List ActionStep → Nat → Store → Store × List StreamEvent
  | [], _, st => (st, [])
  | step :: rest, i, st =>
    let ev := sendTaskStep sid tid i total step.action
    let st1 := (updateTask st tid { currentStep := some (i + 1) }).1
    let r := runSteps sid tid total rest (i + 1) st1
    (r.1, ev :: r.2)

/-- `POST /api/tasks/:id/run`: 404 on an unknown id; otherwise set the task to
`running` with `currentStep := 0` (the HTTP response is this snapshot), emit
`task_start`, simulate every plan step in order, set the task to `completed`
and emit `task_complete(success := true)`.  No approval is requested on this
path. -/
def runTaskRoute (st : Store) (tid : String) : RouteResult Task :=
  match getTask st tid with
  | none => { result := none, store := st, events := [] }
  | some task =>
    let p := updateTask st task.id { status := some .running, currentStep := some 0 }
    let r := runSteps task.sessionId task.id task.plan.length task.plan 0 p.1
    let st3 := (updateTask r.1 task.id { status := some .completed }).1
    { result := p.2
      store := st3
      events := sendTaskStart task.sessionId task.id task.title
        :: (r.2 ++ [sendTaskComplete task.sessionId task.id true]) }

/-- Snapshots of the task row after each write `POST /api/tasks/:id/run`
performs while the task is in status `running`: after the initial reset to
`currentStep := 0` and after each loop iteration's `currentStep := i+1` (the
final `status := completed` write ends the running phase and is not part of
this trace).  The writes mirror `runSteps`. -/
def runStepsSnapshots (tid : String) :
    List ActionStep → Nat → Store → List Task
  | [], _, _ => []
  | _ :: rest, i, st =>
    let st1 := (updateTask st tid { currentStep := some (i + 1) }).1
    (getTask st1 tid).toList ++ runStepsSnapshots tid rest (i + 1) st1

/-- The full running-phase trace of `POST /api/tasks/:id/run` for one task. -/
def runTaskSnapshots (st : Store) (tid : String) : List Task :=
  match getTask st tid with
  | none => []
  | some task =>
    let p := updateTask st task.id { status := some .running, currentStep := some 0 }
    (getTask p.1 task.id).toList ++ runStepsSnapshots task.id task.plan 0 p.1

/-- `POST /api/tasks/:id/cancel`: set the task to `cancelled` whatever its
current status; 404 only when the id is unknown; broadcast a warn log line. -/
def cancelTaskRoute (st : Store) (tid : String) : RouteResult Task :=
  let p := updateTask st tid { status := some .cancelled }
  match p.2 with
  | none => { result := none, store := p.1, events := [] }
  | some t =>
    { result := some t
      store := p.1
      events := [sendLogLine t.sessionId (some t.id) "Task cancelled by user" "warn"] }

/-- `POST /api/approvals/:id/resolve`: map `approved` to the target status,
call `DatabaseStorage.resolveApproval` (which never checks the current
status), 404 on an unknown id, and broadcast `approval_resolved`. -/
def resolveApprovalRoute (st : Store) (aid : String) (approved : Bool) :
    RouteResult Approval :=
  let status := if approved then ApprovalStatus.approved else ApprovalStatus.rejected
  let p := resolveApproval st aid status
  match p.2 with
  | none => { result := none, store := p.1, events := [] }
  | some a =>
    { result := some a
      store := p.1
      events := [sendApprovalResolved a.sessionId a.id status] }

/-- `GET /api/sessions/:sessionId/approvals` returns
`storage.getPendingApprovals(sessionId)`. -/
def pendingApprovalsRoute (st : Store) (sid : String) : List Approval :=
  getPendingApprovals st sid

/-- One connected WebSocket client: the identity of the underlying socket,
whether `readyState === OPEN`, and the messages delivered to it so far. -/
structure WSClient where
  cid : Nat
  isOpen : Bool
  inbox : List StreamEvent
deriving DecidableEq

/-- The StreamingService registry `clients: Map<string, WebSocketClient[]>`. -/
structure StreamingState where
  clients : List (String × List WSClient)
deriving DecidableEq

/-- `this.clients.get(sessionId) || []`. -/
def getEntry (m : List (String × List WSClient)) (sid : String) : List WSClient :=
  match m.find? (fun p => p.1 == sid) with
  | some p => p.2
  | none => []

/-- `this.clients.set(sessionId, v)`: replace the entry, or add it. -/
def setEntry : List (String × List WSClient) → String → List WSClient →
    List (String × List WSClient)
  | [], sid, v => [(sid, v)]
  | p :: rest, sid, v =>
    if p.1 == sid then (sid, v) :: rest else p :: setEntry rest sid v

/-- `this.clients.delete(sessionId)`. -/
def delEntry (m : List (String × List WSClient)) (sid : String) :
    List (String × List WSClient) :=
  m.filter (fun p => p.1 != sid)

/-- The observers currently registered for a session. -/
def clientsOf (s : StreamingState) (sid : String) : List WSClient :=
  getEntry s.clients sid

/-- The body of the `broadcast` loop for one client: if the socket is open,
send the message (append it to the inbox); otherwise skip the client. -/
def deliver (e : StreamEvent) (c : WSClient) : WSClient :=
  if c.isOpen then { c with inbox := c.inbox ++ [e] } else c

/-- Delivery of a whole event sequence to one client, in order. -/
def deliverAll (es : List StreamEvent) (c : WSClient) : WSClient :=
  if c.isOpen then { c with inbox := c.inbox ++ es } else c

/-- `StreamingService.broadcast`: look up the session's client list (absent
key: `|| []`, the loop does nothing and the registry is untouched) and send
the event to every client whose socket is open.  It is a total function: no
error reaches the caller. -/
def broadcast (s : StreamingState) (sid : String) (e : StreamEvent) :
    StreamingState :=
  match s.clients.find? (fun p => p.1 == sid) with
  | none => s
  | some _ =>
    { clients := setEntry s.clients sid ((getEntry s.clients sid).map (deliver e)) }

/-- `StreamingService.addClient`. -/
def addClient (s : StreamingState) (sid : String) (c : WSClient) : StreamingState :=
  { clients := setEntry s.clients sid (getEntry s.clients sid ++ [c]) }

/-- `StreamingService.removeClient` (the handler of the socket's `close` and
`error` events): drop every entry of that socket from the session's list;
delete the key when the list becomes empty. -/
def removeClient (s : StreamingState) (sid : String) (cid : Nat) : StreamingState :=
  let filtered := (getEntry s.clients sid).filter (fun c => c.cid != cid)
  if filtered.length > 0 then { clients := setEntry s.clients sid filtered }
  else { clients := delEntry s.clients sid }

/-- A sequence of `broadcast` calls, each addressed to a session. -/
def broadcastTrace (s : StreamingState) (es : List (String × StreamEvent)) :
    StreamingState :=
  es.foldl (fun acc p => broadcast acc p.1 p.2) s

/-- The events of a trace addressed to one session, in published order. -/
def eventsTo (sid : String) (es : List (String × StreamEvent)) : List StreamEvent :=
  es.filterMap (fun p => if p.1 == sid then some p.2 else none)

/-- What the stop loop does to one task row: cancelled when its id is among
the ids of the fetched running tasks, untouched otherwise. -/
def cancelMark (ids : List String) (now : Nat) (t : Task) : Task :=
  if t.id ∈ ids then { t with status := .cancelled, updatedAt := now } else t

/-- The ids of the running tasks of a fetched task list. -/
def runningIds (l : List Task) : List String :=
  (l.filter (fun t => t.status == TaskStatus.running)).map Task.id

/-! ## Concrete fixtures used by witnesses and counterexamples -/

/-- A session with both safety flags off (`allowDestructive=false`,
`dryRunMode=false`). -/
def c1Session : Session :=
  { id := "s1", name := "dev", status := .idle, dryRunMode := false,
    allowDestructive := false, createdAt := 0, updatedAt := 0 }

/-- A pending one-step task whose single step is the destructive
`delete_file("/x")`. -/
def c1Task : Task :=
  { id := "t1", sessionId := "s1", title := "cleanup", status := .pending,
    plan := [{ action := .delete_file, target := some "/x" }],
    currentStep := 0, totalSteps := 1, error := none, retryCount := 0,
    createdAt := 1, updatedAt := 1 }

/-- The store of the C1 scenario: one non-destructive-mode, non-dry-run
session and one destructive single-step task; no approvals exist. -/
def c1Store : Store :=
  { sessions := [c1Session], tasks := [c1Task], approvals := [], now := 4 }

/-- A pending approval. -/
def c2Approval : Approval :=
  { id := "a1", sessionId := "s1", taskId := some "t1", action := "delete_file",
    status := .pending, createdAt := 1, resolvedAt := none }

/-- Store holding one pending approval. -/
def c2Store : Store :=
  { sessions := [], tasks := [], approvals := [c2Approval], now := 7 }

/-- The same approval after a first successful resolution (approved at 7). -/
def c2ApprovalResolved : Approval :=
  { c2Approval with status := .approved, resolvedAt := some 7 }

/-- Store holding one already-resolved approval, at a later instant. -/
def c2StoreResolved : Store :=
  { sessions := [], tasks := [], approvals := [c2ApprovalResolved], now := 9 }

/-- A running task of session s1. -/
def c3TaskRunning : Task :=
  { id := "t1", sessionId := "s1", title := "deploy", status := .running,
    plan := [{ action := .shell_exec, target := some "make" }],
    currentStep := 0, totalSteps := 1, error := none, retryCount := 0,
    createdAt := 1, updatedAt := 1 }

/-- A pending task of session s1. -/
def c3TaskPending : Task :=
  { id := "t2", sessionId := "s1", title := "lint", status := .pending,
    plan := [], currentStep := 0, totalSteps := 0, error := none,
    retryCount := 0, createdAt := 2, updatedAt := 2 }

/-- A running task of another session s2. -/
def c3TaskOther : Task :=
  { id := "t3", sessionId := "s2", title := "index", status := .running,
    plan := [], currentStep := 0, totalSteps := 0, error := none,
    retryCount := 0, createdAt := 3, updatedAt := 3 }

/-- Store of the stop scenario: session s1 running two tasks, one of them
running, plus a running task of a different session. -/
def c3Store : Store :=
  { sessions := [{ c1Session with status := .running }],
    tasks := [c3TaskRunning, c3TaskPending, c3TaskOther],
    approvals := [], now := 6 }

/-- A two-step pending task whose `totalSteps` equals its plan length. -/
def c4Task : Task :=
  { id := "t1", sessionId := "s1", title := "build", status := .pending,
    plan := [{ action := .check_tool, target := some "git" },
             { action := .shell_exec, target := some "echo" }],
    currentStep := 0, totalSteps := 2, error := none, retryCount := 0,
    createdAt := 1, updatedAt := 1 }

/-- Store of the monotonicity scenario. -/
def c4Store : Store :=
  { sessions := [c1Session], tasks := [c4Task], approvals := [], now := 5 }

/-- A failed two-step task that stopped at step 1 with an error recorded. -/
def c5Task : Task :=
  { id := "t1", sessionId := "s1", title := "build", status := .failed,
    plan := [{ action := .check_tool, target := some "git" },
             { action := .shell_exec, target := some "echo" }],
    currentStep := 1, totalSteps := 2, error := some "tool failed",
    retryCount := 0, createdAt := 1, updatedAt := 2 }

/-- Store of the retry scenario: one failed task. -/
def c5Store : Store :=
  { sessions := [c1Session], tasks := [c5Task], approvals := [], now := 5 }

/-- Pending approval of s1, created first. -/
def c8A : Approval :=
  { id := "a1", sessionId := "s1", taskId := some "t1", action := "delete_file",
    status := .pending, createdAt := 1, resolvedAt := none }

/-- Already-approved approval of s1. -/
def c8B : Approval :=
  { id := "a2", sessionId := "s1", taskId := some "t1", action := "git_push",
    status := .approved, createdAt := 2, resolvedAt := some 3 }

/-- Pending approval of a different session. -/
def c8C : Approval :=
  { id := "a3", sessionId := "s2", taskId := none, action := "shell_exec",
    status := .pending, createdAt := 3, resolvedAt := none }

/-- Pending approval of s1, created last. -/
def c8D : Approval :=
  { id := "a4", sessionId := "s1", taskId := some "t2", action := "docker_run",
    status := .pending, createdAt := 4, resolvedAt := none }

/-- Store with a mix of pending/resolved approvals across two sessions, in
creation order. -/
def c8Store : Store :=
  { sessions := [], tasks := [], approvals := [c8A, c8B, c8C, c8D], now := 9 }

/-- A completed task - not running - used to cancel from a terminal status. -/
def c10Task : Task :=
  { id := "t1", sessionId := "s1", title := "ship", status := .completed,
    plan := [{ action := .git_commit }], currentStep := 1, totalSteps := 1,
    error := none, retryCount := 2, createdAt := 1, updatedAt := 3 }

/-- Store of the cancel-from-terminal-status scenario. -/
def c10Store : Store :=
  { sessions := [c1Session], tasks := [c10Task], approvals := [], now := 8 }

/-- An open observer of s1. -/
def wsA : WSClient := { cid := 1, isOpen := true, inbox := [] }

/-- A second open observer of s1. -/
def wsB : WSClient := { cid := 2, isOpen := true, inbox := [] }

/-- An observer of s1 whose socket is no longer open (unreachable). -/
def wsC : WSClient := { cid := 3, isOpen := false, inbox := [] }

/-- An open observer of s2. -/
def wsD : WSClient := { cid := 4, isOpen := true, inbox := [] }

/-- Registry with three observers on s1 (one unreachable) and one on s2. -/
def wsState : StreamingState :=
  { clients := [("s1", [wsA, wsB, wsC]), ("s2", [wsD])] }

/-- A sample event published to s1. -/
def evHello : StreamEvent := sendLogLine "s1" none "hello" "info"

/-- A trace interleaving publishes to s1 and to s2. -/
def trMixed : List (String × StreamEvent) :=
  [("s1", evHello), ("s2", sendLogLine "s2" none "noise" "info"),
   ("s1", sendTaskComplete "s1" "t1" true)]

/-- The same trace with different events published to the other session. -/
def trMixed' : List (String × StreamEvent) :=
  [("s2", sendLogLine "s2" none "other" "warn"), ("s1", evHello),
   ("s1", sendTaskComplete "s1" "t1" true),
   ("s2", sendTaskComplete "s2" "t9" false)]

/-! ## Helper lemmas on the storage layer -/

theorem find?_map_if {α : Type} (p : α → Bool) (f : α → α)
    (hp : ∀ a, p (f a) = p a) :
    ∀ l : List α,
      (l.map (fun a => if p a then f a else a)).find? p = (l.find? p).map f
  | [] => rfl
  | a :: l => by
    by_cases h : p a = true
    · simp [List.find?_cons, h, hp]
    · have h' : p a = false := by simpa using h
      simp [List.find?_cons, h', hp, find?_map_if p f hp l]

theorem getTask_updateTask_same (st : Store) (id : String) (u : TaskUpdate) :
    getTask (updateTask st id u).1 id
      = (getTask st id).map (applyTaskUpdate u st.now) := by
  have hp : ∀ t : Task, ((applyTaskUpdate u st.now t).id == id) = (t.id == id) := by
    intro t; rfl
  simpa [getTask, updateTask] using
    find?_map_if (fun t : Task => t.id == id) (applyTaskUpdate u st.now) hp st.tasks

theorem updateTask_result (st : Store) (id : String) (u : TaskUpdate) :
    (updateTask st id u).2 = (getTask st id).map (applyTaskUpdate u st.now) := by
  have hp : ∀ t : Task, ((applyTaskUpdate u st.now t).id == id) = (t.id == id) := by
    intro t; rfl
  simpa [getTask, updateTask] using
    find?_map_if (fun t : Task => t.id == id) (applyTaskUpdate u st.now) hp st.tasks

theorem updateSession_result (st : Store) (id : String) (u : SessionUpdate) :
    (updateSession st id u).2 = (getSession st id).map (applySessionUpdate u st.now) := by
  have hp : ∀ s : Session,
      ((applySessionUpdate u st.now s).id == id) = (s.id == id) := by
    intro s; rfl
  simpa [getSession, updateSession] using
    find?_map_if (fun s : Session => s.id == id) (applySessionUpdate u st.now) hp st.sessions

theorem resolveApproval_result (st : Store) (id : String) (status : ApprovalStatus) :
    (resolveApproval st id status).2
      = (getApproval st id).map
          (fun a => { a with status := status, resolvedAt := some st.now }) := by
  have hp : ∀ a : Approval,
      (({ a with status := status, resolvedAt := some st.now } : Approval).id == id)
        = (a.id == id) := by
    intro a; rfl
  simpa [getApproval, resolveApproval] using
    find?_map_if (fun a : Approval => a.id == id)
      (fun a => { a with status := status, resolvedAt := some st.now }) hp st.approvals

theorem getApproval_resolveApproval_same (st : Store) (id : String)
    (status : ApprovalStatus) :
    getApproval (resolveApproval st id status).1 id
      = (getApproval st id).map
          (fun a => { a with status := status, resolvedAt := some st.now }) := by
  have hp : ∀ a : Approval,
      (({ a with status := status, resolvedAt := some st.now } : Approval).id == id)
        = (a.id == id) := by
    intro a; rfl
  simpa [getApproval, resolveApproval] using
    find?_map_if (fun a : Approval => a.id == id)
      (fun a => { a with status := status, resolvedAt := some st.now }) hp st.approvals

theorem updateTask_now (st : Store) (id : String) (u : TaskUpdate) :
    (updateTask st id u).1.now = st.now := rfl

theorem updateTask_sessions (st : Store) (id : String) (u : TaskUpdate) :
    (updateTask st id u).1.sessions = st.sessions := rfl

theorem updateTask_approvals (st : Store) (id : String) (u : TaskUpdate) :
    (updateTask st id u).1.approvals = st.approvals := rfl

theorem updateSession_tasks (st : Store) (id : String) (u : SessionUpdate) :
    (updateSession st id u).1.tasks = st.tasks := rfl

theorem updateSession_now (st : Store) (id : String) (u : SessionUpdate) :
    (updateSession st id u).1.now = st.now := rfl

theorem getTask_id {st : Store} {tid : String} {t : Task}
    (h : getTask st tid = some t) : t.id = tid := by
  have := List.find?_some h
  simpa using this

theorem mem_runningIds_of {st : Store} {sid : String} {t : Task}
    (ht : t ∈ st.tasks) (hsid : t.sessionId = sid) (hrun : t.status = .running) :
    t.id ∈ runningIds (getTasksBySession st sid) := by
  have h1 : t ∈ getTasksBySession st sid := by
    simp [getTasksBySession, List.mem_reverse, List.mem_filter, ht, hsid]
  have h2 : t ∈ (getTasksBySession st sid).filter
      (fun u => u.status == TaskStatus.running) := by
    simp [List.mem_filter, h1, hrun]
  exact List.mem_map.mpr ⟨t, h2, rfl⟩

/-! ## Helper lemmas on the run loop -/

theorem applyTaskUpdate_step (n : Nat) (i : Nat) (t : Task) :
    applyTaskUpdate { currentStep := some i } n t
      = { t with currentStep := i, updatedAt := n } := by
  simp [applyTaskUpdate]

theorem applyTaskUpdate_reset (n : Nat) (t : Task) :
    applyTaskUpdate { status := some .running, currentStep := some 0 } n t
      = { t with status := .running, currentStep := 0, updatedAt := n } := by
  simp [applyTaskUpdate]

theorem runStepsSnapshots_eq (tid : String) :
    ∀ (rest : List ActionStep) (i : Nat) (st : Store) (t0 : Task),
      getTask st tid = some t0 →
      runStepsSnapshots tid rest i st
        = (List.range rest.length).map
            (fun k => { t0 with currentStep := i + k + 1, updatedAt := st.now })
  | [], _, _, _, _ => rfl
  | _ :: rest, i, st, t0, h => by
    have h1 : getTask (updateTask st tid { currentStep := some (i + 1) }).1 tid
        = some { t0 with currentStep := i + 1, updatedAt := st.now } := by
      rw [getTask_updateTask_same, h]
      exact congrArg some (applyTaskUpdate_step st.now (i + 1) t0)
    have ih := runStepsSnapshots_eq tid rest (i + 1)
      (updateTask st tid { currentStep := some (i + 1) }).1
      { t0 with currentStep := i + 1, updatedAt := st.now } h1
    simp only [runStepsSnapshots, h1, ih, updateTask_now, Option.toList_some,
      List.length_cons, List.range_succ_eq_map, List.map_cons, List.map_map,
      List.singleton_append]
    refine congrArg₂ List.cons rfl ?_
    refine congrArg (fun f => List.map f (List.range rest.length)) ?_
    funext k
    simp only [Function.comp, Task.mk.injEq, true_and, and_true]
    omega

theorem getTask_runSteps (sid tid : String) (total : Nat) :
    ∀ (rest : List ActionStep) (i : Nat) (st : Store) (t0 : Task),
      getTask st tid = some t0 → t0.currentStep = i → t0.updatedAt = st.now →
      getTask (runSteps sid tid total rest i st).1 tid
        = some { t0 with currentStep := i + rest.length, updatedAt := st.now }
  | [], i, st, t0, h, hc, hu => by
    simp only [runSteps, h, List.length_nil, Nat.add_zero]
    refine congrArg some ?_
    cases t0
    simp_all
  | _ :: rest, i, st, t0, h, _, _ => by
    have h1 : getTask (updateTask st tid { currentStep := some (i + 1) }).1 tid
        = some { t0 with currentStep := i + 1, updatedAt := st.now } := by
      rw [getTask_updateTask_same, h]
      exact congrArg some (applyTaskUpdate_step st.now (i + 1) t0)
    have ih := getTask_runSteps sid tid total rest (i + 1)
      (updateTask st tid { currentStep := some (i + 1) }).1
      { t0 with currentStep := i + 1, updatedAt := st.now } h1 rfl rfl
    simp only [runSteps, ih, updateTask_now, List.length_cons]
    refine congrArg some ?_
    simp only [Task.mk.injEq, true_and, and_true]
    omega

theorem runSteps_events (sid tid : String) (total : Nat) :
    ∀ (rest : List ActionStep) (i : Nat) (st : Store),
      (runSteps sid tid total rest i st).2
        = (List.enumFrom i rest).map
            (fun p => sendTaskStep sid tid p.1 total p.2.action)
  | [], _, _ => rfl
  | _ :: rest, i, st => by
    simp only [runSteps, List.enumFrom, List.map_cons]
    exact congrArg₂ List.cons rfl
      (runSteps_events sid tid total rest (i + 1)
        (updateTask st tid { currentStep := some (i + 1) }).1)

theorem runSteps_now (sid tid : String) (total : Nat) :
    ∀ (rest : List ActionStep) (i : Nat) (st : Store),
      (runSteps sid tid total rest i st).1.now = st.now
  | [], _, _ => rfl
  | _ :: rest, i, st => by
    simp only [runSteps]
    exact runSteps_now sid tid total rest (i + 1) _

/-! ## Helper lemmas on the emergency-stop cancellation loop -/

theorem cancelRunning_cons (t : Task) (l : List Task) (st : Store) :
    cancelRunning (t :: l) st
      = cancelRunning l
          (if t.status == TaskStatus.running
           then (updateTask st t.id { status := some .cancelled }).1 else st) := rfl

theorem cancelRunning_sessions :
    ∀ (l : List Task) (st : Store), (cancelRunning l st).sessions = st.sessions
  | [], _ => rfl
  | t :: l, st => by
    rw [cancelRunning_cons]
    cases hb : t.status == TaskStatus.running
    · simp only [Bool.false_eq_true, if_false]
      exact cancelRunning_sessions l st
    · rw [if_pos rfl]
      exact cancelRunning_sessions l _

theorem cancelRunning_approvals :
    ∀ (l : List Task) (st : Store), (cancelRunning l st).approvals = st.approvals
  | [], _ => rfl
  | t :: l, st => by
    rw [cancelRunning_cons]
    cases hb : t.status == TaskStatus.running
    · simp only [Bool.false_eq_true, if_false]
      exact cancelRunning_approvals l st
    · rw [if_pos rfl]
      exact cancelRunning_approvals l _

theorem cancelRunning_now :
    ∀ (l : List Task) (st : Store), (cancelRunning l st).now = st.now
  | [], _ => rfl
  | t :: l, st => by
    rw [cancelRunning_cons]
    cases hb : t.status == TaskStatus.running
    · simp only [Bool.false_eq_true, if_false]
      exact cancelRunning_now l st
    · rw [if_pos rfl]
      exact cancelRunning_now l _

theorem cancelMark_comp (tid : String) (ids : List String) (now : Nat) (u : Task) :
    cancelMark ids now
        (if u.id == tid then applyTaskUpdate { status := some .cancelled } now u else u)
      = cancelMark (tid :: ids) now u := by
  have happ : applyTaskUpdate { status := some .cancelled } now u
      = { u with status := .cancelled, updatedAt := now } := by
    simp [applyTaskUpdate]
  by_cases h : (u.id == tid) = true
  · have he : u.id = tid := by simpa using h
    simp only [h, if_pos, happ, cancelMark]
    have hmem : u.id ∈ tid :: ids := by
      simp [he]
    simp only [hmem, if_pos]
    split <;> rfl
  · have he : ¬ u.id = tid := by simpa using h
    simp only [h]
    simp only [Bool.false_eq_true, if_false, cancelMark, List.mem_cons]
    by_cases hm : u.id ∈ ids
    · simp [hm, he]
    · simp [hm, he]

theorem cancelRunning_tasks :
    ∀ (l : List Task) (st : Store),
      (cancelRunning l st).tasks
        = st.tasks.map (cancelMark (runningIds l) st.now)
  | [], st => by
    have hm : cancelMark (runningIds []) st.now = fun t => t := by
      funext t
      simp [cancelMark, runningIds]
    rw [hm, List.map_id']
    rfl
  | t :: l, st => by
    rw [cancelRunning_cons]
    cases hb : t.status == TaskStatus.running
    · have hids : runningIds (t :: l) = runningIds l := by
        simp [runningIds, List.filter_cons, hb]
      simp only [Bool.false_eq_true, if_false]
      rw [hids]
      exact cancelRunning_tasks l st
    · have hids : runningIds (t :: l) = t.id :: runningIds l := by
        simp [runningIds, List.filter_cons, hb]
      rw [if_pos rfl]
      have ih := cancelRunning_tasks l (updateTask st t.id { status := some .cancelled }).1
      rw [ih, updateTask_now, hids]
      show (st.tasks.map _).map _ = _
      rw [List.map_map]
      refine congrArg (fun f => List.map f st.tasks) ?_
      funext u
      exact cancelMark_comp t.id (runningIds l) st.now u

/-! ## Helper lemmas on the StreamingService registry -/

theorem getEntry_setEntry_same (sid : String) (v : List WSClient) :
    ∀ m : List (String × List WSClient), getEntry (setEntry m sid v) sid = v
  | [] => by simp [setEntry, getEntry, List.find?_cons]
  | p :: m => by
    cases hb : p.1 == sid
    · simp only [setEntry, hb, Bool.false_eq_true, if_false]
      simp only [getEntry, List.find?_cons, hb]
      exact getEntry_setEntry_same sid v m
    · simp only [setEntry, hb, if_pos]
      simp [getEntry, List.find?_cons]

theorem getEntry_setEntry_other (sid sid' : String) (v : List WSClient)
    (h : sid' ≠ sid) :
    ∀ m : List (String × List WSClient),
      getEntry (setEntry m sid v) sid' = getEntry m sid'
  | [] => by
    have hb : (sid == sid') = false := by
      simp only [beq_eq_false_iff_ne, ne_eq]
      exact fun he => h he.symm
    simp [setEntry, getEntry, List.find?_cons, hb]
  | p :: m => by
    cases hb : p.1 == sid
    · simp only [setEntry, hb, Bool.false_eq_true, if_false]
      simp only [getEntry, List.find?_cons]
      cases hb' : p.1 == sid'
      · exact getEntry_setEntry_other sid sid' v h m
      · rfl
    · have hp : p.1 = sid := by simpa using hb
      have hb' : (p.1 == sid') = false := by
        simp only [beq_eq_false_iff_ne, ne_eq, hp]
        exact fun he => h he.symm
      have hb'' : (sid == sid') = false := by
        simp only [beq_eq_false_iff_ne, ne_eq]
        exact fun he => h he.symm
      simp only [setEntry, hb, if_pos]
      simp [getEntry, List.find?_cons, hb', hb'']

theorem getEntry_delEntry_same (sid : String) :
    ∀ m : List (String × List WSClient), getEntry (delEntry m sid) sid = []
  | [] => rfl
  | p :: m => by
    cases hb : p.1 == sid
    · have hne : (p.1 != sid) = true := by simp [bne, hb]
      simp only [delEntry, List.filter_cons, hne, if_pos]
      simp only [getEntry, List.find?_cons, hb]
      exact getEntry_delEntry_same sid m
    · have hne : (p.1 != sid) = false := by simp [bne, hb]
      simp only [delEntry, List.filter_cons, hne, Bool.false_eq_true, if_false]
      exact getEntry_delEntry_same sid m

theorem getEntry_delEntry_other (sid sid' : String) (h : sid' ≠ sid) :
    ∀ m : List (String × List WSClient),
      getEntry (delEntry m sid) sid' = getEntry m sid'
  | [] => rfl
  | p :: m => by
    cases hb : p.1 == sid
    · have hne : (p.1 != sid) = true := by simp [bne, hb]
      simp only [delEntry, List.filter_cons, hne, if_pos]
      simp only [getEntry, List.find?_cons]
      cases hb' : p.1 == sid'
      · exact getEntry_delEntry_other sid sid' h m
      · rfl
    · have hp : p.1 = sid := by simpa using hb
      have hne : (p.1 != sid) = false := by simp [bne, hb]
      have hb' : (p.1 == sid') = false := by
        simp only [beq_eq_false_iff_ne, ne_eq, hp]
        exact fun he => h he.symm
      simp only [delEntry, List.filter_cons, hne, Bool.false_eq_true, if_false]
      have := getEntry_delEntry_other sid sid' h m
      simp only [delEntry] at this
      rw [this]
      simp [getEntry, List.find?_cons, hb']

theorem clientsOf_broadcast (s : StreamingState) (sid sid' : String)
    (e : StreamEvent) :
    clientsOf (broadcast s sid e) sid'
      = if sid' = sid then (clientsOf s sid').map (deliver e)
        else clientsOf s sid' := by
  by_cases h : sid' = sid
  · subst h
    rw [if_pos rfl]
    unfold broadcast
    cases hf : s.clients.find? (fun p => p.1 == sid')
    · have hempty : clientsOf s sid' = [] := by
        simp [clientsOf, getEntry, hf]
      rw [hempty]
      simp [hempty]
    · simp only [clientsOf]
      exact getEntry_setEntry_same sid' _ s.clients
  · rw [if_neg h]
    unfold broadcast
    cases hf : s.clients.find? (fun p => p.1 == sid)
    · rfl
    · simp only [clientsOf]
      exact getEntry_setEntry_other sid sid' _ h s.clients

theorem clientsOf_removeClient_same (s : StreamingState) (sid : String)
    (cid : Nat) :
    clientsOf (removeClient s sid cid) sid
      = (clientsOf s sid).filter (fun c => c.cid != cid) := by
  unfold removeClient
  by_cases h : ((getEntry s.clients sid).filter (fun c => c.cid != cid)).length > 0
  · rw [if_pos h]
    exact getEntry_setEntry_same sid _ s.clients
  · rw [if_neg h]
    have hnil : (getEntry s.clients sid).filter (fun c => c.cid != cid) = [] := by
      have := Nat.eq_zero_of_not_pos h
      exact List.length_eq_zero.mp this
    show getEntry (delEntry s.clients sid) sid = _
    rw [getEntry_delEntry_same sid s.clients]
    exact hnil.symm

theorem clientsOf_removeClient_other (s : StreamingState) (sid sid' : String)
    (cid : Nat) (h : sid' ≠ sid) :
    clientsOf (removeClient s sid cid) sid' = clientsOf s sid' := by
  unfold removeClient
  by_cases hl : ((getEntry s.clients sid).filter (fun c => c.cid != cid)).length > 0
  · rw [if_pos hl]
    exact getEntry_setEntry_other sid sid' _ h s.clients
  · rw [if_neg hl]
    exact getEntry_delEntry_other sid sid' h s.clients

theorem deliverAll_cid (es : List StreamEvent) (c : WSClient) :
    (deliverAll es c).cid = c.cid := by
  unfold deliverAll
  split <;> rfl

theorem deliverAll_nil (c : WSClient) : deliverAll [] c = c := by
  unfold deliverAll
  cases c with
  | mk cid isOpen inbox =>
    cases isOpen <;> simp

theorem deliverAll_deliver (e : StreamEvent) (es : List StreamEvent)
    (c : WSClient) :
    deliverAll es (deliver e c) = deliverAll (e :: es) c := by
  unfold deliverAll deliver
  cases c with
  | mk cid isOpen inbox =>
    cases isOpen <;> simp

theorem clientsOf_broadcastTrace (sid : String) :
    ∀ (tr : List (String × StreamEvent)) (s : StreamingState),
      clientsOf (broadcastTrace s tr) sid
        = (clientsOf s sid).map (deliverAll (eventsTo sid tr))
  | [], s => by
    have hm : deliverAll (eventsTo sid []) = fun c => c := by
      funext c
      exact deliverAll_nil c
    simp only [broadcastTrace, List.foldl_nil, hm, List.map_id']
  | (sid₀, e) :: tr, s => by
    have hstep : broadcastTrace s ((sid₀, e) :: tr)
        = broadcastTrace (broadcast s sid₀ e) tr := rfl
    rw [hstep, clientsOf_broadcastTrace sid tr (broadcast s sid₀ e),
      clientsOf_broadcast]
    by_cases h : sid = sid₀
    · subst h
      rw [if_pos rfl, List.map_map]
      have hev : eventsTo sid ((sid, e) :: tr) = e :: eventsTo sid tr := by
        simp [eventsTo]
      rw [hev]
      refine congrArg (fun f => List.map f (clientsOf s sid)) ?_
      funext c
      exact deliverAll_deliver e (eventsTo sid tr) c
    · rw [if_neg h]
      have hev : eventsTo sid ((sid₀, e) :: tr) = eventsTo sid tr := by
        have h' : ¬ sid₀ = sid := fun he => h he.symm
        simp [eventsTo, h']
      rw [hev]

/-! ## Claim theorems -/

/-- Claim C6: `StreamingService.broadcast` applies the send step to every
observer currently registered for the target session; an open observer's inbox
grows by exactly the published event, and over a whole publish trace an open
observer's inbox grows by exactly the events published to its session in
published order.  A publish whose session has no registry entry leaves the
state unchanged (the event is dropped) and, `broadcast` being a total
function, surfaces no error.  After `removeClient` returns, no observer with
the removed socket identity is registered for the session, whatever is
published later. -/
theorem broadcast_fanout_order_drop_unsub (s : StreamingState)
    (sid sid0 : String) (cid : Nat) (e : StreamEvent)
    (tr : List (String × StreamEvent)) :
    (clientsOf (broadcast s sid e) sid = (clientsOf s sid).map (deliver e)) ∧
    (∀ c : WSClient, c.isOpen = true →
        deliver e c = { c with inbox := c.inbox ++ [e] }) ∧
    (clientsOf (broadcastTrace s tr) sid
        = (clientsOf s sid).map (deliverAll (eventsTo sid tr))) ∧
    (∀ c : WSClient, c.isOpen = true →
        deliverAll (eventsTo sid tr) c
          = { c with inbox := c.inbox ++ eventsTo sid tr }) ∧
    (s.clients.find? (fun p => p.1 == sid0) = none → broadcast s sid0 e = s) ∧
    (∀ c ∈ clientsOf (broadcastTrace (removeClient s sid cid) tr) sid,
        c.cid ≠ cid) := by
  refine ⟨?_, ?_, ?_, ?_, ?_, ?_⟩
  · rw [clientsOf_broadcast, if_pos rfl]
  · intro c hc
    unfold deliver
    rw [if_pos hc]
  · exact clientsOf_broadcastTrace sid tr s
  · intro c hc
    unfold deliverAll
    rw [if_pos hc]
  · intro hf
    unfold broadcast
    rw [hf]
  · intro c hc
    rw [clientsOf_broadcastTrace, clientsOf_removeClient_same] at hc
    obtain ⟨c₀, hc₀, rfl⟩ := List.mem_map.mp hc
    have hfil := List.mem_filter.mp hc₀
    have hne : c₀.cid ≠ cid := by simpa using hfil.2
    rw [deliverAll_cid]
    exact hne

/-- Witness for C6 on the concrete registry: three observers on s1 (one with a
closed socket) and one on s2; publish to s1, a mixed trace, a publish to an
unknown session s3, and removal of observer 1 followed by the trace. -/
theorem broadcast_fanout_order_drop_unsub_witness :
    (clientsOf (broadcast wsState "s1" evHello) "s1"
        = (clientsOf wsState "s1").map (deliver evHello)) ∧
    (deliver evHello wsA = { wsA with inbox := wsA.inbox ++ [evHello] }) ∧
    (clientsOf (broadcastTrace wsState trMixed) "s1"
        = (clientsOf wsState "s1").map (deliverAll (eventsTo "s1" trMixed))) ∧
    (deliverAll (eventsTo "s1" trMixed) wsA
        = { wsA with inbox := wsA.inbox ++ eventsTo "s1" trMixed }) ∧
    (broadcast wsState "s3" evHello = wsState) ∧
    ((deliverAll (eventsTo "s1" trMixed) wsB).cid ≠ 1) :=
  ⟨(broadcast_fanout_order_drop_unsub wsState "s1" "s3" 1 evHello trMixed).1,
   (broadcast_fanout_order_drop_unsub wsState "s1" "s3" 1 evHello trMixed).2.1
     wsA rfl,
   (broadcast_fanout_order_drop_unsub wsState "s1" "s3" 1 evHello trMixed).2.2.1,
   (broadcast_fanout_order_drop_unsub wsState "s1" "s3" 1 evHello trMixed).2.2.2.1
     wsA rfl,
   (broadcast_fanout_order_drop_unsub wsState "s1" "s3" 1 evHello trMixed).2.2.2.2.1
     (by decide),
   (broadcast_fanout_order_drop_unsub wsState "s1" "s3" 1 evHello trMixed).2.2.2.2.2
     (deliverAll (eventsTo "s1" trMixed) wsB) (by decide)⟩

/-- Claim C7: a closed/unreachable observer is skipped by the send step (its
inbox is untouched) while every open observer of the session still receives
the event; `broadcast` is a total function, so no delivery failure surfaces to
the publisher; the `error`-event handler (`removeClient`) removes exactly the
entries of the failing socket from that session's observer list and leaves
every other session's list unchanged. -/
theorem failed_observer_isolated_and_removed (s : StreamingState)
    (sid sid' : String) (cid : Nat) (e : StreamEvent) :
    (∀ c : WSClient, c.isOpen = false → deliver e c = c) ∧
    (∀ c : WSClient, c.isOpen = true →
        deliver e c = { c with inbox := c.inbox ++ [e] }) ∧
    (clientsOf (broadcast s sid e) sid = (clientsOf s sid).map (deliver e)) ∧
    (clientsOf (removeClient s sid cid) sid
        = (clientsOf s sid).filter (fun c => c.cid != cid)) ∧
    (sid' ≠ sid → clientsOf (removeClient s sid cid) sid' = clientsOf s sid') := by
  refine ⟨?_, ?_, ?_, ?_, ?_⟩
  · intro c hc
    unfold deliver
    rw [hc]
    simp
  · intro c hc
    unfold deliver
    rw [if_pos hc]
  · rw [clientsOf_broadcast, if_pos rfl]
  · exact clientsOf_removeClient_same s sid cid
  · intro h
    exact clientsOf_removeClient_other s sid sid' cid h

/-- Witness for C7: observer 3 of s1 has a closed socket; a publish to s1
leaves its inbox unchanged while observers 1 and 2 receive the event, and
removing observer 3 drops exactly it from s1 and leaves s2's list unchanged. -/
theorem failed_observer_isolated_and_removed_witness :
    (deliver evHello wsC = wsC) ∧
    (deliver evHello wsB = { wsB with inbox := wsB.inbox ++ [evHello] }) ∧
    (clientsOf (broadcast wsState "s1" evHello) "s1"
        = (clientsOf wsState "s1").map (deliver evHello)) ∧
    (clientsOf (removeClient wsState "s1" 3) "s1"
        = (clientsOf wsState "s1").filter (fun c => c.cid != 3)) ∧
    (clientsOf (removeClient wsState "s1" 3) "s2" = clientsOf wsState "s2") :=
  ⟨(failed_observer_isolated_and_removed wsState "s1" "s2" 3 evHello).1 wsC rfl,
   (failed_observer_isolated_and_removed wsState "s1" "s2" 3 evHello).2.1 wsB rfl,
   (failed_observer_isolated_and_removed wsState "s1" "s2" 3 evHello).2.2.1,
   (failed_observer_isolated_and_removed wsState "s1" "s2" 3 evHello).2.2.2.1,
   (failed_observer_isolated_and_removed wsState "s1" "s2" 3 evHello).2.2.2.2
     (by decide)⟩

/-- Claim C9: `broadcast` is confined to the target session - a publish to
`sid` leaves every other session's observer list (inboxes included) unchanged;
the observers of a session after a whole publish trace are a function of that
session's own published events only, so two traces whose projections to the
session agree produce identical observer states (hence identical delivered
message sequences) for that session. -/
theorem broadcast_confined_to_session (s : StreamingState) (sid sid' : String)
    (e : StreamEvent) (tr1 tr2 : List (String × StreamEvent)) :
    (sid' ≠ sid → clientsOf (broadcast s sid e) sid' = clientsOf s sid') ∧
    (clientsOf (broadcastTrace s tr1) sid
        = (clientsOf s sid).map (deliverAll (eventsTo sid tr1))) ∧
    (eventsTo sid tr1 = eventsTo sid tr2 →
        clientsOf (broadcastTrace s tr1) sid
          = clientsOf (broadcastTrace s tr2) sid) := by
  refine ⟨?_, ?_, ?_⟩
  · intro h
    rw [clientsOf_broadcast, if_neg h]
  · exact clientsOf_broadcastTrace sid tr1 s
  · intro hev
    rw [clientsOf_broadcastTrace, clientsOf_broadcastTrace, hev]

/-- Witness for C9: the two concrete traces publish the same events to s1 but
different events to s2; s1's observers end identical, and a publish to s1
leaves s2's observer list unchanged. -/
theorem broadcast_confined_to_session_witness :
    (clientsOf (broadcast wsState "s1" evHello) "s2" = clientsOf wsState "s2") ∧
    (clientsOf (broadcastTrace wsState trMixed) "s1"
        = (clientsOf wsState "s1").map (deliverAll (eventsTo "s1" trMixed))) ∧
    (clientsOf (broadcastTrace wsState trMixed) "s1"
        = clientsOf (broadcastTrace wsState trMixed') "s1") :=
  ⟨(broadcast_confined_to_session wsState "s1" "s2" evHello trMixed trMixed').1
     (by decide),
   (broadcast_confined_to_session wsState "s1" "s2" evHello trMixed trMixed').2.1,
   (broadcast_confined_to_session wsState "s1" "s2" evHello trMixed trMixed').2.2
     (by decide)⟩

/-- Claim C8: `DatabaseStorage.getPendingApprovals(sessionId)` returns exactly
the approvals of that session whose status is pending - no resolved approval,
no approval of another session - and, the table being kept in creation order,
the result is ordered by creation time. -/
theorem pending_approvals_exact_and_ordered (st : Store) (sid : String) :
    (∀ a : Approval, a ∈ getPendingApprovals st sid ↔
        (a ∈ st.approvals ∧ a.sessionId = sid ∧ a.status = .pending)) ∧
    (st.approvals.Pairwise (fun x y => x.createdAt ≤ y.createdAt) →
        (getPendingApprovals st sid).Pairwise
          (fun x y => x.createdAt ≤ y.createdAt)) := by
  constructor
  · intro a
    simp [getPendingApprovals, List.mem_filter, and_assoc]
  · intro hp
    exact hp.filter _

/-- Witness for C8 on the concrete store: four approvals across two sessions,
two of them pending for s1 - the result is exactly those two, in creation
order. -/
theorem pending_approvals_exact_and_ordered_witness :
    (∀ a : Approval, a ∈ getPendingApprovals c8Store "s1" ↔
        (a ∈ c8Store.approvals ∧ a.sessionId = "s1" ∧ a.status = .pending)) ∧
    (getPendingApprovals c8Store "s1").Pairwise
      (fun x y => x.createdAt ≤ y.createdAt) :=
  ⟨(pending_approvals_exact_and_ordered c8Store "s1").1,
   (pending_approvals_exact_and_ordered c8Store "s1").2 (by decide)⟩

/-- Claim C2 counterexample: resolving the same approval twice does NOT raise
ConflictError.  On the concrete store, the first call resolves the pending
approval to approved; the second call succeeds as well (returns a payload, not
an error), publishes a second `approval_resolved` event, and overwrites the
status from approved to rejected - the claim's "raises ConflictError,
publishes no second event, leaves status unchanged" all fail. -/
theorem resolve_twice_no_conflict_cex :
    ((resolveApprovalRoute c2Store "a1" true).result.map Approval.status
        = some .approved) ∧
    ((resolveApprovalRoute
        (resolveApprovalRoute c2Store "a1" true).store "a1" false).result.isSome
        = true) ∧
    ((resolveApprovalRoute
        (resolveApprovalRoute c2Store "a1" true).store "a1" false).events.length
        = 1) ∧
    ((getApproval (resolveApprovalRoute
        (resolveApprovalRoute c2Store "a1" true).store "a1" false).store
        "a1").map Approval.status = some .rejected) := by
  decide

/-- Claim C2 (amended): `resolveApproval` transitions unconditionally - for
any approval id present in the store, whatever its current status (including
already resolved), `resolve` succeeds (no ConflictError), overwrites `status`
with the newly requested status and `resolvedAt` with the current time, and
publishes one (possibly repeated) `approval_resolved` event; only an unknown
id yields the NotFound response. -/
theorem resolve_overwrites_unconditionally (st : Store) (aid : String)
    (approved : Bool) (a : Approval) (h : getApproval st aid = some a) :
    (resolveApprovalRoute st aid approved).result
        = some { a with
            status := if approved then ApprovalStatus.approved else .rejected,
            resolvedAt := some st.now } ∧
    getApproval (resolveApprovalRoute st aid approved).store aid
        = some { a with
            status := if approved then ApprovalStatus.approved else .rejected,
            resolvedAt := some st.now } ∧
    (resolveApprovalRoute st aid approved).events
        = [sendApprovalResolved a.sessionId a.id
            (if approved then ApprovalStatus.approved else .rejected)] := by
  have hres := resolveApproval_result st aid
    (if approved then ApprovalStatus.approved else .rejected)
  rw [h] at hres
  have hsame := getApproval_resolveApproval_same st aid
    (if approved then ApprovalStatus.approved else .rejected)
  rw [h] at hsame
  simp only [resolveApprovalRoute, hres, Option.map_some']
  refine ⟨trivial, ?_, trivial⟩
  rw [hsame]
  simp

/-- Witness for the amended C2: on the store whose approval is already
resolved (approved at instant 7), a second resolution with `approved=false`
succeeds, flips the status to rejected, stamps `resolvedAt` with the current
instant 9, and publishes an `approval_resolved` event. -/
theorem resolve_overwrites_unconditionally_witness :
    (resolveApprovalRoute c2StoreResolved "a1" false).result
        = some { c2ApprovalResolved with
            status := ApprovalStatus.rejected,
            resolvedAt := some c2StoreResolved.now } ∧
    getApproval (resolveApprovalRoute c2StoreResolved "a1" false).store "a1"
        = some { c2ApprovalResolved with
            status := ApprovalStatus.rejected,
            resolvedAt := some c2StoreResolved.now } ∧
    (resolveApprovalRoute c2StoreResolved "a1" false).events
        = [sendApprovalResolved c2ApprovalResolved.sessionId
            c2ApprovalResolved.id ApprovalStatus.rejected] :=
  resolve_overwrites_unconditionally c2StoreResolved "a1" false
    c2ApprovalResolved (by decide)

/-- Claim C10: `POST /api/tasks/:id/cancel` sets the task to `cancelled`
whatever its current status is - the handler never inspects the status - while
leaving plan, currentStep, totalSteps, error and retryCount unchanged (visible
in the record literal, which only replaces `status` and the bookkeeping
`updatedAt`); an unknown id is the only rejection (NotFound). -/
theorem cancel_any_status_sets_cancelled (st : Store) (tid : String) :
    (∀ task : Task, getTask st tid = some task →
        (cancelTaskRoute st tid).result
            = some { task with status := .cancelled, updatedAt := st.now } ∧
        getTask (cancelTaskRoute st tid).store tid
            = some { task with status := .cancelled, updatedAt := st.now } ∧
        (cancelTaskRoute st tid).events
            = [sendLogLine task.sessionId (some task.id)
                "Task cancelled by user" "warn"]) ∧
    (getTask st tid = none → (cancelTaskRoute st tid).result = none) := by
  constructor
  · intro task h
    have hres := updateTask_result st tid { status := some .cancelled }
    rw [h] at hres
    have hsame := getTask_updateTask_same st tid { status := some .cancelled }
    rw [h] at hsame
    have happ : applyTaskUpdate { status := some .cancelled } st.now task
        = { task with status := .cancelled, updatedAt := st.now } := by
      simp [applyTaskUpdate]
    simp only [cancelTaskRoute, hres, Option.map_some', happ]
    refine ⟨trivial, ?_, trivial⟩
    rw [hsame]
    simp [happ]
  · intro h
    have hres := updateTask_result st tid { status := some .cancelled }
    rw [h] at hres
    simp only [cancelTaskRoute, hres, Option.map_none']

/-- Witness for C10 on the concrete store: cancelling a task whose status is
`completed` (a terminal, non-running status) still transitions it to
`cancelled` and leaves every other field unchanged. -/
theorem cancel_any_status_sets_cancelled_witness :
    (cancelTaskRoute c10Store "t1").result
        = some { c10Task with status := .cancelled, updatedAt := c10Store.now } ∧
    getTask (cancelTaskRoute c10Store "t1").store "t1"
        = some { c10Task with status := .cancelled, updatedAt := c10Store.now } ∧
    (cancelTaskRoute c10Store "t1").events
        = [sendLogLine c10Task.sessionId (some c10Task.id)
            "Task cancelled by user" "warn"] :=
  (cancel_any_status_sets_cancelled c10Store "t1").1 c10Task (by decide)

/-- Claim C3: after `POST /api/sessions/:id/stop` returns on an existing
session, the session's status is `idle`, no task of the session is `running`
(every task of the session that was running is now `cancelled`), and exactly
one summarizing warn `log_line` event was emitted. -/
theorem stop_halts_session_tasks (st : Store) (sid : String) (s0 : Session)
    (h : getSession st sid = some s0) :
    (stopSessionRoute st sid).result
        = some { s0 with status := .idle, updatedAt := st.now } ∧
    (∀ s ∈ (stopSessionRoute st sid).store.sessions,
        s.id = sid → s.status = .idle) ∧
    (∀ t ∈ (stopSessionRoute st sid).store.tasks,
        t.sessionId = sid → t.status ≠ .running) ∧
    (∀ t ∈ st.tasks, t.sessionId = sid → t.status = .running →
        ∀ t' ∈ (stopSessionRoute st sid).store.tasks,
          t'.id = t.id → t'.status = .cancelled) ∧
    (stopSessionRoute st sid).events
        = [sendLogLine sid none
            "Emergency stop triggered - all processes terminated" "warn"] := by
  have hres := updateSession_result st sid { status := some .idle }
  rw [h] at hres
  have happ : applySessionUpdate { status := some .idle } st.now s0
      = { s0 with status := .idle, updatedAt := st.now } := by
    simp [applySessionUpdate]
  have hsess : (stopSessionRoute st sid).store.sessions
      = st.sessions.map (fun s₁ =>
          if s₁.id == sid
          then applySessionUpdate { status := some .idle } st.now s₁ else s₁) := by
    simp only [stopSessionRoute, hres, Option.map_some']
    exact cancelRunning_sessions _ _
  have htasks : (stopSessionRoute st sid).store.tasks
      = st.tasks.map
          (cancelMark (runningIds (getTasksBySession st sid)) st.now) := by
    simp only [stopSessionRoute, hres, Option.map_some']
    exact cancelRunning_tasks _ _
  refine ⟨?_, ?_, ?_, ?_, ?_⟩
  · simp only [stopSessionRoute, hres, Option.map_some', happ]
  · intro s hs hid
    rw [hsess] at hs
    obtain ⟨s₁, hs₁, heq⟩ := List.mem_map.mp hs
    by_cases hb : (s₁.id == sid) = true
    · rw [if_pos hb] at heq
      rw [← heq]
      rfl
    · rw [if_neg hb] at heq
      subst heq
      exact absurd (by simpa using hid) hb
  · intro t ht hsid
    rw [htasks] at ht
    obtain ⟨t₁, ht₁, heq⟩ := List.mem_map.mp ht
    unfold cancelMark at heq
    by_cases hmem : t₁.id ∈ runningIds (getTasksBySession st sid)
    · rw [if_pos hmem] at heq
      rw [← heq]
      intro hcontra
      cases hcontra
    · rw [if_neg hmem] at heq
      subst heq
      intro hrun
      exact hmem (mem_runningIds_of ht₁ hsid hrun)
  · intro t ht hsid hrun t' ht' hid
    have hmemIds : t.id ∈ runningIds (getTasksBySession st sid) :=
      mem_runningIds_of ht hsid hrun
    rw [htasks] at ht'
    obtain ⟨t₁, ht₁, heq⟩ := List.mem_map.mp ht'
    unfold cancelMark at heq
    by_cases hmem : t₁.id ∈ runningIds (getTasksBySession st sid)
    · rw [if_pos hmem] at heq
      rw [← heq]
    · rw [if_neg hmem] at heq
      subst heq
      rw [hid] at hmem
      exact absurd hmemIds hmem
  · simp only [stopSessionRoute, hres, Option.map_some']

/-- Witness for C3 on the concrete store: session s1 with a running task, a
pending task, and a running task belonging to another session; after stop, s1
is idle, its running task is cancelled, and one warn log line was emitted. -/
theorem stop_halts_session_tasks_witness :
    (stopSessionRoute c3Store "s1").result
        = some { { c1Session with status := .running } with
            status := .idle, updatedAt := c3Store.now } ∧
    (∀ s ∈ (stopSessionRoute c3Store "s1").store.sessions,
        s.id = "s1" → s.status = .idle) ∧
    (∀ t ∈ (stopSessionRoute c3Store "s1").store.tasks,
        t.sessionId = "s1" → t.status ≠ .running) ∧
    (∀ t ∈ c3Store.tasks, t.sessionId = "s1" → t.status = .running →
        ∀ t' ∈ (stopSessionRoute c3Store "s1").store.tasks,
          t'.id = t.id → t'.status = .cancelled) ∧
    (stopSessionRoute c3Store "s1").events
        = [sendLogLine "s1" none
            "Emergency stop triggered - all processes terminated" "warn"] :=
  stop_halts_session_tasks c3Store "s1" { c1Session with status := .running }
    (by decide)

/-- Claim C4: along the run loop of `POST /api/tasks/:id/run`, for a task
whose `totalSteps` equals its plan length (as every server-created task
satisfies), the successive `currentStep` values written while the task is
`running` are exactly 0, 1, ..., plan length: monotonically non-decreasing and
always between 0 and `totalSteps`, with `totalSteps` equal to the plan length
throughout. -/
theorem run_currentStep_monotone_bounded (st : Store) (tid : String)
    (task : Task) (h : getTask st tid = some task)
    (htot : task.totalSteps = task.plan.length) :
    (runTaskSnapshots st tid).map Task.currentStep
        = List.range (task.plan.length + 1) ∧
    List.Chain' (fun a b => a.currentStep ≤ b.currentStep)
      (runTaskSnapshots st tid) ∧
    (∀ u ∈ runTaskSnapshots st tid,
        u.currentStep ≤ u.totalSteps ∧ u.status = .running ∧
        u.totalSteps = u.plan.length) := by
  have htid : task.id = tid := getTask_id h
  rw [← htid] at h ⊢
  have h1 : getTask
      (updateTask st task.id
        { status := some .running, currentStep := some 0 }).1 task.id
      = some { task with
               status := .running
               currentStep := 0
               updatedAt := st.now } := by
    rw [getTask_updateTask_same, h]
    exact congrArg some (applyTaskUpdate_reset st.now task)
  have hsnap := runStepsSnapshots_eq task.id task.plan 0 _ _ h1
  have htrace : runTaskSnapshots st task.id
      = (List.range (task.plan.length + 1)).map
          (fun k => { task with
                      status := .running
                      currentStep := k
                      updatedAt := st.now }) := by
    simp only [runTaskSnapshots, h, h1, Option.toList_some, hsnap,
      updateTask_now, List.singleton_append, List.range_succ_eq_map,
      List.map_cons, List.map_map]
    refine congrArg₂ List.cons rfl ?_
    refine congrArg (fun f => List.map f (List.range task.plan.length)) ?_
    funext k
    simp only [Function.comp, Task.mk.injEq, true_and, and_true]
    omega
  refine ⟨?_, ?_, ?_⟩
  · rw [htrace, List.map_map]
    have hcomp : (Task.currentStep ∘ fun k =>
        ({ task with
           status := .running
           currentStep := k
           updatedAt := st.now } : Task)) = id := by
      funext k
      rfl
    rw [hcomp, List.map_id]
  · rw [htrace, List.chain'_map]
    have hpw : (List.range (task.plan.length + 1)).Pairwise (· ≤ ·) :=
      (List.pairwise_lt_range _).imp Nat.le_of_lt
    exact hpw.chain'
  · intro u hu
    rw [htrace] at hu
    obtain ⟨k, hk, rfl⟩ := List.mem_map.mp hu
    have hklt := List.mem_range.mp hk
    refine ⟨?_, rfl, htot⟩
    show k ≤ task.totalSteps
    rw [htot]
    omega

/-- Witness for C4 on the concrete two-step task (`totalSteps = 2 =` plan
length): the running-phase trace of currentStep is [0, 1, 2], a monotone chain
bounded by totalSteps. -/
theorem run_currentStep_monotone_bounded_witness :
    (runTaskSnapshots c4Store "t1").map Task.currentStep
        = List.range (c4Task.plan.length + 1) ∧
    List.Chain' (fun a b => a.currentStep ≤ b.currentStep)
      (runTaskSnapshots c4Store "t1") ∧
    (∀ u ∈ runTaskSnapshots c4Store "t1",
        u.currentStep ≤ u.totalSteps ∧ u.status = .running ∧
        u.totalSteps = u.plan.length) :=
  run_currentStep_monotone_bounded c4Store "t1" c4Task (by decide) (by decide)

/-- Claim C5 counterexample: the control surface has no retry operation - the
client's retry button invokes `POST /api/tasks/:id/run`.  On the concrete
store holding a failed two-step task that stopped at `currentStep = 1` with
`retryCount = 0`, running it leaves `retryCount` at 0 (not incremented), the
response snapshot shows `currentStep` reset to 0 (not resumed at 1), the
emitted events re-execute step 0 (a completed step), and the task ends
`completed` - contradicting the claimed increment-and-resume semantics. -/
theorem run_as_retry_resets_cex :
    ((getTask (runTaskRoute c5Store "t1").store "t1").map Task.retryCount
        = some 0) ∧
    ((runTaskRoute c5Store "t1").result.map Task.currentStep = some 0) ∧
    ((getTask (runTaskRoute c5Store "t1").store "t1").map Task.status
        = some .completed) ∧
    ((runTaskRoute c5Store "t1").events
        = [sendTaskStart "s1" "t1" "build",
           sendTaskStep "s1" "t1" 0 2 .check_tool,
           sendTaskStep "s1" "t1" 1 2 .shell_exec,
           sendTaskComplete "s1" "t1" true]) := by
  decide

/-- Claim C5 (amended): retrying a failed task is a fresh run, not a resume -
the run route transitions it to `running` with `currentStep` reset to 0 (the
response snapshot), re-simulates every plan step from index 0, leaves
`retryCount` unchanged (visible in the record literals, which never touch that
field), and ends with status `completed` and `currentStep` equal to the plan
length. -/
theorem retry_is_rerun_from_start (st : Store) (tid : String) (task : Task)
    (h : getTask st tid = some task) (_hfail : task.status = .failed) :
    (runTaskRoute st tid).result
        = some { task with
                 status := .running
                 currentStep := 0
                 updatedAt := st.now } ∧
    getTask (runTaskRoute st tid).store tid
        = some { task with
                 status := .completed
                 currentStep := task.plan.length
                 updatedAt := st.now } ∧
    (runTaskRoute st tid).events
        = sendTaskStart task.sessionId task.id task.title
            :: ((List.enumFrom 0 task.plan).map
                  (fun p => sendTaskStep task.sessionId task.id p.1
                    task.plan.length p.2.action)
                ++ [sendTaskComplete task.sessionId task.id true]) := by
  have htid : task.id = tid := getTask_id h
  rw [← htid] at h ⊢
  have h1 : getTask
      (updateTask st task.id
        { status := some .running, currentStep := some 0 }).1 task.id
      = some { task with
               status := .running
               currentStep := 0
               updatedAt := st.now } := by
    rw [getTask_updateTask_same, h]
    exact congrArg some (applyTaskUpdate_reset st.now task)
  have hres : (updateTask st task.id
      { status := some .running, currentStep := some 0 }).2
      = some { task with
               status := .running
               currentStep := 0
               updatedAt := st.now } := by
    rw [updateTask_result, h]
    exact congrArg some (applyTaskUpdate_reset st.now task)
  have hloop := getTask_runSteps task.sessionId task.id task.plan.length
    task.plan 0 _ _ h1 rfl rfl
  refine ⟨?_, ?_, ?_⟩
  · simp only [runTaskRoute, h, hres]
  · simp only [runTaskRoute, h]
    rw [getTask_updateTask_same, hloop, Option.map_some']
    refine congrArg some ?_
    simp only [applyTaskUpdate, Option.getD_some, Option.getD_none,
      runSteps_now, updateTask_now, Task.mk.injEq, true_and, and_true]
    omega
  · simp only [runTaskRoute, h]
    rw [runSteps_events]

/-- Witness for the amended C5: running the concrete failed task produces the
reset-to-0 snapshot, the completed end state with unchanged retryCount, and
the from-index-0 event sequence. -/
theorem retry_is_rerun_from_start_witness :
    (runTaskRoute c5Store "t1").result
        = some { c5Task with
                 status := .running
                 currentStep := 0
                 updatedAt := c5Store.now } ∧
    getTask (runTaskRoute c5Store "t1").store "t1"
        = some { c5Task with
                 status := .completed
                 currentStep := c5Task.plan.length
                 updatedAt := c5Store.now } ∧
    (runTaskRoute c5Store "t1").events
        = sendTaskStart c5Task.sessionId c5Task.id c5Task.title
            :: ((List.enumFrom 0 c5Task.plan).map
                  (fun p => sendTaskStep c5Task.sessionId c5Task.id p.1
                    c5Task.plan.length p.2.action)
                ++ [sendTaskComplete c5Task.sessionId c5Task.id true]) :=
  retry_is_rerun_from_start c5Store "t1" c5Task (by decide) (by decide)

/-- Claim C1 (code-bug evidence): on the exact scenario of the claim - a
session with `allowDestructive = false` and `dryRunMode = false`, a one-step
plan `[delete_file("/x")]` - the run route creates no Approval at all (the
approvals table stays empty, nothing is pending for the session), emits no
`approval_required` event, and instead of suspending marks the task
`completed` with `currentStep = 1`.  The handler's own TODO comments mark the
simulation as a placeholder for real gated execution. -/
theorem run_destructive_no_approval_gate :
    ((getSession c1Store "s1").map Session.allowDestructive = some false) ∧
    ((getSession c1Store "s1").map Session.dryRunMode = some false) ∧
    ((runTaskRoute c1Store "t1").store.approvals = []) ∧
    (getPendingApprovals (runTaskRoute c1Store "t1").store "s1" = []) ∧
    ((runTaskRoute c1Store "t1").events.filter
        (fun e => e.type == .approval_required) = []) ∧
    ((runTaskRoute c1Store "t1").events
        = [sendTaskStart "s1" "t1" "cleanup",
           sendTaskStep "s1" "t1" 0 1 .delete_file,
           sendTaskComplete "s1" "t1" true]) ∧
    ((getTask (runTaskRoute c1Store "t1").store "t1").map Task.status
        = some .completed) ∧
    ((getTask (runTaskRoute c1Store "t1").store "t1").map Task.currentStep
        = some 1) ∧
    ((getTask (runTaskRoute c1Store "t1").store "t1").map Task.error
        = some none) := by
  decide

end RepliteAgent
